import Mathlib

/-
Verification of the playback control and state-synchronization subsystem of
the ncurses music player (src/scripts/music_player.py).

The `MusicPlayer` class is modelled as a record of its playback-relevant
attributes (`State`).  Every interaction with the outside world — playlist
resolution (`parse_m3u8`), the result of `random.shuffle`, metadata labels
(`get_song_info`), the mpv spawn attempt, process liveness polls, and the
replies read from the mpv IPC socket — is supplied explicitly through an
`Env` record, one per operation call, so the operations themselves are pure
functions `Env → State → State`.  Numeric IPC property values are modelled
as rationals.
-/

namespace MusicPlayer

/-- The module-level configuration constant `PLAYER_CMD = "mpv"`. -/
def PLAYER_CMD : String := "mpv"

/-- Outcome of extracting the `data` field from one parsed JSON IPC reply:
the field may be absent, present but `None`, present and convertible by
`float(...)` to a number, or present but not convertible (so that
`float(...)` raises `ValueError`). -/
inductive DataField where
  | absent
  | null
  | numeric (q : ℚ)
  | nonNumeric
deriving DecidableEq

/-- One newline-terminated reply read from the IPC socket: either
`json.loads` raises `JSONDecodeError`, or it yields an object whose
`data` field is described by a `DataField`. -/
inductive Reply where
  | parseError
  | ok (d : DataField)
deriving DecidableEq

/-- The external world observed during a single operation call: the playlist
resolver (`parse_m3u8`), the permutation produced by `random.shuffle`
(always a permutation of its input, recorded by `shuffle_perm`), the label
extractor (`get_song_info`), the fresh IPC socket path, whether the mpv
spawn succeeds, whether `poll()` reports the process as exited, whether the
socket path exists on disk, whether connecting and the first send/recv
succeed, whether the first reply parses as JSON, whether the socket I/O of
the pause read-back succeeds, whether the read-back reply parses, the
read-back `data` field, whether `send_signal` succeeds, and the two replies
of the progress query. -/
structure Env where
  resolve : String → List String
  shuffleList : List String → List String
  shuffle_perm : ∀ l, List.Perm (shuffleList l) l
  label : String → String
  socketPath : String
  spawnOk : Bool
  pollExited : Bool
  socketExists : Bool
  connectOk : Bool
  firstReplyParses : Bool
  statusSockOk : Bool
  statusParses : Bool
  statusData : Option Bool
  signalOk : Bool
  posReply : Reply
  durReply : Reply

/-- The playback-relevant attributes of a `MusicPlayer` instance. -/
structure State where
  current_playlist : Option String
  songs : List String
  current_song_index : Nat
  shuffle : Bool
  player_process : Option Unit
  ipc_socket : Option String
  paused : Bool
  current_song_info : String
deriving DecidableEq

/-- The state established by `MusicPlayer.__init__`. -/
def initState : State :=
  { current_playlist := none
    songs := []
    current_song_index := 0
    shuffle := false
    player_process := none
    ipc_socket := none
    paused := false
    current_song_info := "" }

/-- `MusicPlayer.stop_playback`: terminates the player process (dropping the
handle) and removes the IPC socket artifact, clearing `ipc_socket`. -/
def stop_playback (s : State) : State :=
  { s with player_process := none, ipc_socket := none }

/-- `MusicPlayer.play_current_song`: returns unchanged when the song list is
empty or the index is out of range; otherwise stops any current playback,
records the song label, resets `paused`, allocates a fresh socket path, and
attempts to spawn mpv.  On `FileNotFoundError` the visible info string is
replaced by an error label and no handle is created. -/
def play_current_song (env : Env) (s : State) : State :=
  if s.songs = [] ∨ s.songs.length ≤ s.current_song_index then s
  else
    let s1 := stop_playback s
    let song_path := s1.songs.getD s1.current_song_index ""
    let s2 := { s1 with
      current_song_info := env.label song_path
      paused := false
      ipc_socket := some env.socketPath }
    if env.spawnOk then
      { s2 with player_process := some () }
    else
      { s2 with current_song_info := "Error: " ++ PLAYER_CMD ++ " not found" }

/-- `MusicPlayer.next_song`: no-op on an empty list; otherwise advances the
index modulo the list length and plays the song there. -/
def next_song (env : Env) (s : State) : State :=
  if s.songs = [] then s
  else
    play_current_song env
      { s with current_song_index := (s.current_song_index + 1) % s.songs.length }

/-- `MusicPlayer.previous_song`: no-op on an empty list; otherwise retreats
the index using Python's nonnegative modulo (`Int.emod`) and plays the song
there. -/
def previous_song (env : Env) (s : State) : State :=
  if s.songs = [] then s
  else
    play_current_song env
      { s with current_song_index :=
          (((s.current_song_index : Int) - 1) % (s.songs.length : Int)).toNat }

/-- `MusicPlayer.toggle_shuffle`: flips the shuffle flag; when a list is
loaded and the index is in range, shuffles only the songs after the current
index, keeping the already-played ones (and the current song) in place. -/
def toggle_shuffle (env : Env) (s : State) : State :=
  let s1 := { s with shuffle := !s.shuffle }
  if s1.songs ≠ [] ∧ s1.current_song_index < s1.songs.length then
    let remaining := s1.songs.drop (s1.current_song_index + 1)
    if remaining ≠ [] then
      { s1 with songs :=
          s1.songs.take (s1.current_song_index + 1) ++ env.shuffleList remaining }
    else s1
  else s1

/-- `MusicPlayer.start_playlist`: records the playlist name and resolves its
songs; an empty resolution returns at once, otherwise the list is shuffled
when the shuffle flag is set, the index is reset to 0 and playback starts. -/
def start_playlist (env : Env) (playlist_name : String) (s : State) : State :=
  let s1 := { s with
    current_playlist := some playlist_name
    songs := env.resolve playlist_name }
  if s1.songs = [] then s1
  else
    let s2 := if s1.shuffle then { s1 with songs := env.shuffleList s1.songs } else s1
    play_current_song env { s2 with current_song_index := 0 }

/-- The `SIGSTOP`/`SIGCONT` fallback of `toggle_play_pause`: flips the
paused flag on success; when `send_signal` raises, drops the handle and
clears the paused flag. -/
def signal_fallback (env : Env) (s : State) : State :=
  if env.signalOk then { s with paused := !s.paused }
  else { s with player_process := none, paused := false }

/-- `MusicPlayer.toggle_play_pause`: returns at once when no live process
exists; falls back to signals when the socket path is unset or missing, or
when connecting fails; otherwise cycles `pause` over IPC and reads the
authoritative `pause` property back, adopting its `data` value, flipping
the local flag when a reply fails to parse or carries no `data`, and
degrading to the signal fallback when the read-back socket I/O raises. -/
def toggle_play_pause (env : Env) (s : State) : State :=
  if s.player_process = none ∨ env.pollExited = true then s
  else if s.ipc_socket = none ∨ env.socketExists = false then signal_fallback env s
  else if env.connectOk = false then signal_fallback env s
  else if env.firstReplyParses = false then { s with paused := !s.paused }
  else if env.statusSockOk = false then signal_fallback env s
  else if env.statusParses = false then { s with paused := !s.paused }
  else
    match env.statusData with
    | some b => { s with paused := b }
    | none => { s with paused := !s.paused }

/-- `MusicPlayer.check_player_status`: when a handle exists and `poll()`
reports the process as finished, auto-advances to the next song. -/
def check_player_status (env : Env) (s : State) : State :=
  match s.player_process with
  | none => s
  | some _ => if env.pollExited = true then next_song env s else s

/-- The clamped percentage `min(100, max(0, q))` of `get_progress`. -/
def clamp_pct (q : ℚ) : ℚ := min 100 (max 0 q)

/-- The reply-processing tail of `MusicPlayer.get_progress` (lines 470–500
of the source): a reply that fails to parse yields zeros; a present but
non-`float`-convertible `data` raises `ValueError`, caught as zeros; a
missing or `None` `data` leaves the corresponding quantity at `0.0`; when
the resulting duration is positive the snapshot is the position, the
duration and the clamped percentage, otherwise zeros. -/
def progress_result (pr dr : Reply) : ℚ × ℚ × ℚ :=
  match pr, dr with
  | Reply.parseError, _ => (0, 0, 0)
  | _, Reply.parseError => (0, 0, 0)
  | Reply.ok dpos, Reply.ok ddur =>
    if dpos = DataField.nonNumeric then (0, 0, 0)
    else
      let position : ℚ := match dpos with | DataField.numeric q => q | _ => 0
      if ddur = DataField.nonNumeric then (0, 0, 0)
      else
        let duration : ℚ := match ddur with | DataField.numeric q => q | _ => 0
        if 0 < duration then (position, duration, clamp_pct (position / duration * 100))
        else (0, 0, 0)

/-- `MusicPlayer.get_progress`: returns `(0,0,0)` when no live process or
socket path exists, when the socket is missing or the connection fails;
otherwise issues the `time-pos` and `duration` queries and processes the
two replies as `progress_result`. -/
def get_progress (env : Env) (s : State) : ℚ × ℚ × ℚ :=
  if s.player_process = none ∨ env.pollExited = true then (0, 0, 0)
  else if s.ipc_socket = none ∨ env.socketExists = false then (0, 0, 0)
  else if env.connectOk = false then (0, 0, 0)
  else progress_result env.posReply env.durReply

/-- States reachable from `__init__` by the playback operations, each step
taken under an arbitrary environment. -/
inductive Reachable : State → Prop where
  | init : Reachable initState
  | step_start_playlist (env : Env) (pn : String) {s : State} :
      Reachable s → Reachable (start_playlist env pn s)
  | step_play_current_song (env : Env) {s : State} :
      Reachable s → Reachable (play_current_song env s)
  | step_next_song (env : Env) {s : State} :
      Reachable s → Reachable (next_song env s)
  | step_previous_song (env : Env) {s : State} :
      Reachable s → Reachable (previous_song env s)
  | step_toggle_shuffle (env : Env) {s : State} :
      Reachable s → Reachable (toggle_shuffle env s)
  | step_toggle_play_pause (env : Env) {s : State} :
      Reachable s → Reachable (toggle_play_pause env s)
  | step_check_player_status (env : Env) {s : State} :
      Reachable s → Reachable (check_player_status env s)

/-- The index-bound invariant of the playback session. -/
def Inv (s : State) : Prop :=
  s.songs ≠ [] → s.current_song_index < s.songs.length

/-- A fixed environment used to instantiate universally quantified theorems
at concrete inputs: the shuffle permutation is the identity and every
external interaction is set by the four parameters. -/
def mkEnv (spawn exited : Bool) (pos dur : Reply) : Env :=
  { resolve := fun _ => []
    shuffleList := fun l => l
    shuffle_perm := fun l => List.Perm.refl l
    label := fun p => p
    socketPath := "/tmp/mpv_music_player_1.sock"
    spawnOk := spawn
    pollExited := exited
    socketExists := true
    connectOk := true
    firstReplyParses := true
    statusSockOk := true
    statusParses := true
    statusData := none
    signalOk := true
    posReply := pos
    durReply := dur }

/-- A state with a live player and a recorded socket path, as left by a
successful `play_current_song` on a three-song playlist. -/
def liveState : State :=
  { current_playlist := some "p"
    songs := ["a.mp3", "b.mp3", "c.mp3"]
    current_song_index := 0
    shuffle := false
    player_process := some ()
    ipc_socket := some "/tmp/mpv_music_player_1.sock"
    paused := false
    current_song_info := "a.mp3" }

/-- An environment resolving every playlist name to the fixed list `l`. -/
def listEnv (l : List String) : Env :=
  { mkEnv true false Reply.parseError Reply.parseError with resolve := fun _ => l }

/-- play_current_song never changes the loaded song list. -/
@[simp]
theorem play_current_song_songs (env : Env) (s : State) :
    (play_current_song env s).songs = s.songs := by
  unfold play_current_song stop_playback
  split
  · rfl
  · dsimp only
    split <;> rfl

/-- play_current_song never changes the current index. -/
@[simp]
theorem play_current_song_index (env : Env) (s : State) :
    (play_current_song env s).current_song_index = s.current_song_index := by
  unfold play_current_song stop_playback
  split
  · rfl
  · dsimp only
    split <;> rfl

/-- play_current_song never changes the shuffle flag. -/
@[simp]
theorem play_current_song_shuffle (env : Env) (s : State) :
    (play_current_song env s).shuffle = s.shuffle := by
  unfold play_current_song stop_playback
  split
  · rfl
  · dsimp only
    split <;> rfl

/-- next_song never changes the loaded song list. -/
@[simp]
theorem next_song_songs (env : Env) (s : State) :
    (next_song env s).songs = s.songs := by
  unfold next_song
  split
  · rfl
  · rw [play_current_song_songs]

/-- On a non-empty list, next_song advances the index modulo the length. -/
theorem next_song_index (env : Env) (s : State) (hne : s.songs ≠ []) :
    (next_song env s).current_song_index = (s.current_song_index + 1) % s.songs.length := by
  unfold next_song
  rw [if_neg hne, play_current_song_index]

/-- The invariant survives play_current_song. -/
theorem inv_play_current_song (env : Env) {s : State} (h : Inv s) :
    Inv (play_current_song env s) := by
  intro hne
  rw [play_current_song_songs] at hne ⊢
  rw [play_current_song_index]
  exact h hne

/-- The invariant survives next_song. -/
theorem inv_next_song (env : Env) {s : State} (h : Inv s) :
    Inv (next_song env s) := by
  intro hne
  rw [next_song_songs] at hne ⊢
  rw [next_song_index env s hne]
  exact Nat.mod_lt _ (List.length_pos.2 hne)

/-- The invariant survives previous_song. -/
theorem inv_previous_song (env : Env) {s : State} (h : Inv s) :
    Inv (previous_song env s) := by
  intro hne
  unfold previous_song at hne ⊢
  by_cases h0 : s.songs = []
  · rw [if_pos h0] at hne ⊢
    exact h hne
  · rw [if_neg h0] at hne ⊢
    rw [play_current_song_songs] at hne ⊢
    rw [play_current_song_index]
    dsimp only
    have hpos : 0 < s.songs.length := List.length_pos.2 h0
    have hne0 : (s.songs.length : Int) ≠ 0 := by exact_mod_cast Nat.pos_iff_ne_zero.mp hpos
    have h1 : 0 ≤ ((s.current_song_index : Int) - 1) % (s.songs.length : Int) :=
      Int.emod_nonneg _ hne0
    have h2 : ((s.current_song_index : Int) - 1) % (s.songs.length : Int) <
        (s.songs.length : Int) :=
      Int.emod_lt_of_pos _ (by exact_mod_cast hpos)
    omega

/-- toggle_shuffle never changes the current index. -/
@[simp]
theorem toggle_shuffle_index (env : Env) (s : State) :
    (toggle_shuffle env s).current_song_index = s.current_song_index := by
  unfold toggle_shuffle
  dsimp only
  split
  · split <;> rfl
  · rfl

/-- toggle_shuffle always flips the shuffle flag. -/
@[simp]
theorem toggle_shuffle_shuffle (env : Env) (s : State) :
    (toggle_shuffle env s).shuffle = !s.shuffle := by
  unfold toggle_shuffle
  dsimp only
  split
  · split <;> rfl
  · rfl

/-- toggle_shuffle preserves the length of the song list. -/
theorem toggle_shuffle_songs_length (env : Env) (s : State) :
    (toggle_shuffle env s).songs.length = s.songs.length := by
  unfold toggle_shuffle
  dsimp only
  split
  · rename_i hcond
    split
    · dsimp only
      rw [List.length_append, List.length_take, (env.shuffle_perm _).length_eq,
        List.length_drop]
      omega
    · rfl
  · rfl

/-- The invariant survives toggle_shuffle. -/
theorem inv_toggle_shuffle (env : Env) {s : State} (h : Inv s) :
    Inv (toggle_shuffle env s) := by
  intro hne
  rw [toggle_shuffle_index]
  have hlen := toggle_shuffle_songs_length env s
  have hne' : s.songs ≠ [] := by
    intro h0
    apply hne
    rw [← List.length_eq_zero, hlen, h0]
    rfl
  rw [hlen]
  exact h hne'

/-- The invariant survives start_playlist. -/
theorem inv_start_playlist (env : Env) (pn : String) {s : State} (_ : Inv s) :
    Inv (start_playlist env pn s) := by
  unfold start_playlist
  dsimp only
  split
  · rename_i he
    intro hne
    exact absurd he hne
  · rename_i he
    intro _
    rw [play_current_song_index, play_current_song_songs]
    dsimp only
    split
    · dsimp only
      rw [(env.shuffle_perm _).length_eq]
      exact List.length_pos.2 he
    · exact List.length_pos.2 he

/-- The invariant survives check_player_status. -/
theorem inv_check_player_status (env : Env) {s : State} (h : Inv s) :
    Inv (check_player_status env s) := by
  unfold check_player_status
  split
  · exact h
  · split
    · exact inv_next_song env h
    · exact h

/-- toggle_play_pause never changes the loaded song list. -/
@[simp]
theorem toggle_play_pause_songs (env : Env) (s : State) :
    (toggle_play_pause env s).songs = s.songs := by
  unfold toggle_play_pause signal_fallback
  repeat' split
  all_goals rfl

/-- toggle_play_pause never changes the current index. -/
@[simp]
theorem toggle_play_pause_index (env : Env) (s : State) :
    (toggle_play_pause env s).current_song_index = s.current_song_index := by
  unfold toggle_play_pause signal_fallback
  repeat' split
  all_goals rfl

/-- The invariant survives toggle_play_pause. -/
theorem inv_toggle_play_pause (env : Env) {s : State} (h : Inv s) :
    Inv (toggle_play_pause env s) := by
  intro hne
  rw [toggle_play_pause_songs] at hne ⊢
  rw [toggle_play_pause_index]
  exact h hne

/-- C1.  Index-bound invariant: in every reachable state of the playback
state machine — hence after every `start_playlist`, `next_song`,
`previous_song`, `toggle_shuffle`, `play_current_song`,
`check_player_status` and `toggle_play_pause` step — whenever the song
list is non-empty, `0 ≤ current_song_index < songs.length` holds (the
lower bound is inherent in the `Nat` index). -/
theorem reachable_index_invariant {s : State} (hs : Reachable s) : Inv s := by
  induction hs with
  | init => intro h; exact absurd rfl h
  | step_start_playlist env pn _ ih => exact inv_start_playlist env pn ih
  | step_play_current_song env _ ih => exact inv_play_current_song env ih
  | step_next_song env _ ih => exact inv_next_song env ih
  | step_previous_song env _ ih => exact inv_previous_song env ih
  | step_toggle_shuffle env _ ih => exact inv_toggle_shuffle env ih
  | step_toggle_play_pause env _ ih => exact inv_toggle_play_pause env ih
  | step_check_player_status env _ ih => exact inv_check_player_status env ih

/-- C1 witness: the state reached by starting a three-song playlist from
the initial state is reachable and satisfies the index bound. -/
theorem reachable_index_invariant_witness :
    Reachable (start_playlist (listEnv ["a.mp3", "b.mp3", "c.mp3"]) "p" initState) ∧
    Inv (start_playlist (listEnv ["a.mp3", "b.mp3", "c.mp3"]) "p" initState) := by
  have hr : Reachable (start_playlist (listEnv ["a.mp3", "b.mp3", "c.mp3"]) "p" initState) :=
    Reachable.step_start_playlist _ _ Reachable.init
  exact ⟨hr, reachable_index_invariant hr⟩

/-- Iterating next_song keeps the song list and advances the index by the
iteration count, modulo the length. -/
theorem next_song_iterate (env : Env) (s : State) (hne : s.songs ≠ [])
    (hlt : s.current_song_index < s.songs.length) (k : Nat) :
    ((next_song env)^[k] s).songs = s.songs ∧
    ((next_song env)^[k] s).current_song_index =
      (s.current_song_index + k) % s.songs.length := by
  induction k with
  | zero =>
    exact ⟨rfl, (Nat.mod_eq_of_lt hlt).symm⟩
  | succ k ih =>
    rw [Function.iterate_succ_apply']
    refine ⟨by rw [next_song_songs, ih.1], ?_⟩
    rw [next_song_index _ _ (by rw [ih.1]; exact hne), ih.1, ih.2, Nat.mod_add_mod,
      Nat.add_assoc]

/-- C2.  Wrap-around law: on a non-empty song list, iterating `next_song`
`songs.length` times returns the current index to its original value; and
in the concrete scenario of a three-track playlist started with shuffle
off, the order is kept, the index starts at 0 and three successive
`next_song` calls yield indices 1, 2, 0. -/
theorem next_song_wraparound :
    (∀ (env : Env) (s : State), s.songs ≠ [] →
        s.current_song_index < s.songs.length →
        ((next_song env)^[s.songs.length] s).current_song_index =
          s.current_song_index) ∧
    (∀ (env : Env) (s : State), s.shuffle = false →
        env.resolve "p" = ["a.mp3", "b.mp3", "c.mp3"] →
        (start_playlist env "p" s).songs = ["a.mp3", "b.mp3", "c.mp3"] ∧
        (start_playlist env "p" s).current_song_index = 0 ∧
        (next_song env (start_playlist env "p" s)).current_song_index = 1 ∧
        (next_song env (next_song env (start_playlist env "p" s))).current_song_index = 2 ∧
        (next_song env (next_song env (next_song env
          (start_playlist env "p" s)))).current_song_index = 0) := by
  constructor
  · intro env s hne hlt
    rw [(next_song_iterate env s hne hlt s.songs.length).2, Nat.add_mod_right,
      Nat.mod_eq_of_lt hlt]
  · intro env s hsh hres
    have hsongs : (start_playlist env "p" s).songs = ["a.mp3", "b.mp3", "c.mp3"] := by
      unfold start_playlist
      dsimp only
      rw [hres]
      rw [if_neg (by simp)]
      rw [play_current_song_songs]
      dsimp only
      rw [if_neg (by simp [hsh])]
    have hidx : (start_playlist env "p" s).current_song_index = 0 := by
      unfold start_playlist
      dsimp only
      rw [hres]
      rw [if_neg (by simp)]
      rw [play_current_song_index]
    have h1 : (next_song env (start_playlist env "p" s)).current_song_index = 1 := by
      rw [next_song_index _ _ (by rw [hsongs]; simp), hsongs, hidx]
      rfl
    have h1s : (next_song env (start_playlist env "p" s)).songs =
        ["a.mp3", "b.mp3", "c.mp3"] := by
      rw [next_song_songs, hsongs]
    have h2 : (next_song env (next_song env (start_playlist env "p" s))).current_song_index
        = 2 := by
      rw [next_song_index _ _ (by rw [h1s]; simp), h1s, h1]
      rfl
    have h2s : (next_song env (next_song env (start_playlist env "p" s))).songs =
        ["a.mp3", "b.mp3", "c.mp3"] := by
      rw [next_song_songs, h1s]
    have h3 : (next_song env (next_song env (next_song env
        (start_playlist env "p" s)))).current_song_index = 0 := by
      rw [next_song_index _ _ (by rw [h2s]; simp), h2s, h2]
      rfl
    exact ⟨hsongs, hidx, h1, h2, h3⟩

/-- C2 witness: the wrap-around law and the concrete three-track scenario,
instantiated with the identity-shuffle environment resolving `"p"` to
`["a.mp3", "b.mp3", "c.mp3"]`, starting from the initial state. -/
theorem next_song_wraparound_witness :
    (liveState.songs ≠ [] ∧ liveState.current_song_index < liveState.songs.length ∧
      ((next_song (listEnv ["a.mp3", "b.mp3", "c.mp3"]))^[liveState.songs.length]
        liveState).current_song_index = liveState.current_song_index) ∧
    (initState.shuffle = false ∧
      (listEnv ["a.mp3", "b.mp3", "c.mp3"]).resolve "p" = ["a.mp3", "b.mp3", "c.mp3"] ∧
      (next_song (listEnv ["a.mp3", "b.mp3", "c.mp3"]) (next_song
        (listEnv ["a.mp3", "b.mp3", "c.mp3"]) (next_song (listEnv ["a.mp3", "b.mp3", "c.mp3"])
        (start_playlist (listEnv ["a.mp3", "b.mp3", "c.mp3"]) "p"
          initState)))).current_song_index = 0) := by
  constructor
  · refine ⟨by simp [liveState], by simp [liveState], ?_⟩
    exact next_song_wraparound.1 _ _ (by simp [liveState]) (by simp [liveState])
  · refine ⟨rfl, rfl, ?_⟩
    exact (next_song_wraparound.2 (listEnv ["a.mp3", "b.mp3", "c.mp3"]) initState
      rfl rfl).2.2.2.2

/-- A live-player environment whose `time-pos` reply parses but carries no
`data` field, while the `duration` reply carries the number 200. -/
def missingPosEnv : Env :=
  mkEnv true false (Reply.ok DataField.absent) (Reply.ok (DataField.numeric 200))

/-- On a state with a live handle and recorded socket, under an environment
whose guards all pass, get_progress is the pure reply processing. -/
theorem get_progress_eq_progress_result (env : Env) (s : State)
    (hp : s.player_process ≠ none) (he : env.pollExited = false)
    (hs : s.ipc_socket ≠ none) (hx : env.socketExists = true)
    (hc : env.connectOk = true) :
    get_progress env s = progress_result env.posReply env.durReply := by
  unfold get_progress
  rw [if_neg (by simp [hp, he]), if_neg (by simp [hs, hx]), if_neg (by simp [hc])]

/-- get_progress always yields either all zeros or the pure reply
processing. -/
theorem get_progress_cases (env : Env) (s : State) :
    get_progress env s = (0, 0, 0) ∨
    get_progress env s = progress_result env.posReply env.durReply := by
  unfold get_progress
  split
  · exact Or.inl rfl
  split
  · exact Or.inl rfl
  split
  · exact Or.inl rfl
  · exact Or.inr rfl

/-- An unparseable first reply yields zeros. -/
theorem progress_result_parseError_left (dr : Reply) :
    progress_result Reply.parseError dr = (0, 0, 0) := by
  cases dr <;> rfl

/-- An unparseable second reply yields zeros. -/
theorem progress_result_parseError_right (pr : Reply) :
    progress_result pr Reply.parseError = (0, 0, 0) := by
  cases pr <;> rfl

/-- A non-numeric `time-pos` value yields zeros. -/
theorem progress_result_pos_nonNumeric (ddur : DataField) :
    progress_result (Reply.ok DataField.nonNumeric) (Reply.ok ddur) = (0, 0, 0) := rfl

/-- A `duration` reply whose `data` field is missing, `None` or not
`float`-convertible yields zeros, whatever the `time-pos` reply carried. -/
theorem progress_result_dur_unavailable (dpos ddur : DataField)
    (hd : ddur = DataField.absent ∨ ddur = DataField.null ∨ ddur = DataField.nonNumeric) :
    progress_result (Reply.ok dpos) (Reply.ok ddur) = (0, 0, 0) := by
  rcases hd with h | h | h <;> subst h <;> cases dpos <;> rfl

/-- Two numeric replies with a positive duration yield the snapshot with a
clamped percentage. -/
theorem progress_result_numeric (p d : ℚ) (hd : 0 < d) :
    progress_result (Reply.ok (DataField.numeric p)) (Reply.ok (DataField.numeric d)) =
      (p, d, min 100 (max 0 (p / d * 100))) := by
  show (if 0 < d then (p, d, clamp_pct (p / d * 100)) else ((0 : ℚ), (0 : ℚ), (0 : ℚ)))
    = (p, d, min 100 (max 0 (p / d * 100)))
  rw [if_pos hd]
  rfl

/-- A missing or null `time-pos` coexists with a positive numeric duration:
the position is treated as zero. -/
theorem progress_result_pos_missing (dpos : DataField) (d : ℚ)
    (hpos : dpos = DataField.absent ∨ dpos = DataField.null) (hd : 0 < d) :
    progress_result (Reply.ok dpos) (Reply.ok (DataField.numeric d)) = (0, d, 0) := by
  have hpct : clamp_pct (0 / d * 100) = 0 := by simp [clamp_pct]
  rcases hpos with h | h <;> subst h
  · show (if 0 < d then ((0 : ℚ), d, clamp_pct (0 / d * 100)) else ((0 : ℚ), (0 : ℚ), (0 : ℚ)))
      = (0, d, 0)
    rw [if_pos hd, hpct]
  · show (if 0 < d then ((0 : ℚ), d, clamp_pct (0 / d * 100)) else ((0 : ℚ), (0 : ℚ), (0 : ℚ)))
      = (0, d, 0)
    rw [if_pos hd, hpct]

/-- C3 counterexample: with a live player and socket, a `time-pos` reply
whose `data` field is missing together with `duration = 200` yields the
snapshot `(0, 200, 0)`, not the all-zero snapshot `(0, 0, 0)` that the
claim requires when either property is missing. -/
theorem get_progress_missing_pos_counterexample :
    get_progress missingPosEnv liveState = (0, 200, 0) ∧
    get_progress missingPosEnv liveState ≠ (0, 0, 0) := by
  have h : get_progress missingPosEnv liveState = (0, 200, 0) := by
    rw [get_progress_eq_progress_result _ _ (by decide) rfl (by decide) rfl rfl]
    exact progress_result_pos_missing _ 200 (Or.inl rfl) (by norm_num)
  refine ⟨h, ?_⟩
  rw [h]
  intro hcontra
  have : (200 : ℚ) = 0 := congrArg (fun t => t.2.1) hcontra
  norm_num at this

/-- C3 amended: a reply that fails to parse, a non-numeric `time-pos` or
`duration` value, and a missing (or `None`) `duration` all make the
progress query return `(0, 0, 0)`; but a merely missing (or `None`)
`time-pos` is treated as position `0`, so with a positive numeric duration
`d` the query returns `(0, d, 0)` instead of all zeros. -/
theorem get_progress_unavailable :
    ∀ (env : Env) (s : State),
      (env.posReply = Reply.parseError → get_progress env s = (0, 0, 0)) ∧
      (env.posReply = Reply.ok DataField.nonNumeric → get_progress env s = (0, 0, 0)) ∧
      (env.durReply = Reply.parseError → get_progress env s = (0, 0, 0)) ∧
      (env.durReply = Reply.ok DataField.absent → get_progress env s = (0, 0, 0)) ∧
      (env.durReply = Reply.ok DataField.null → get_progress env s = (0, 0, 0)) ∧
      (env.durReply = Reply.ok DataField.nonNumeric → get_progress env s = (0, 0, 0)) ∧
      (∀ d : ℚ, s.player_process ≠ none → env.pollExited = false →
        s.ipc_socket ≠ none → env.socketExists = true → env.connectOk = true →
        (env.posReply = Reply.ok DataField.absent ∨
          env.posReply = Reply.ok DataField.null) →
        env.durReply = Reply.ok (DataField.numeric d) → 0 < d →
        get_progress env s = (0, d, 0)) := by
  intro env s
  have zero_of : progress_result env.posReply env.durReply = (0, 0, 0) →
      get_progress env s = (0, 0, 0) := by
    intro hz
    rcases get_progress_cases env s with h | h
    · exact h
    · rw [h, hz]
  refine ⟨fun h => ?_, fun h => ?_, fun h => ?_, fun h => ?_, fun h => ?_, fun h => ?_,
    fun d hp he hs hx hc hpos hdur hd => ?_⟩
  · exact zero_of (by rw [h]; exact progress_result_parseError_left _)
  · refine zero_of ?_
    rw [h]
    cases env.durReply with
    | parseError => exact progress_result_parseError_right _
    | ok ddur => exact progress_result_pos_nonNumeric ddur
  · exact zero_of (by rw [h]; exact progress_result_parseError_right _)
  · refine zero_of ?_
    rw [h]
    cases env.posReply with
    | parseError => exact progress_result_parseError_left _
    | ok dpos => exact progress_result_dur_unavailable dpos _ (Or.inl rfl)
  · refine zero_of ?_
    rw [h]
    cases env.posReply with
    | parseError => exact progress_result_parseError_left _
    | ok dpos => exact progress_result_dur_unavailable dpos _ (Or.inr (Or.inl rfl))
  · refine zero_of ?_
    rw [h]
    cases env.posReply with
    | parseError => exact progress_result_parseError_left _
    | ok dpos => exact progress_result_dur_unavailable dpos _ (Or.inr (Or.inr rfl))
  · rw [get_progress_eq_progress_result env s hp he hs hx hc, hdur]
    rcases hpos with h | h <;> rw [h] <;>
      exact progress_result_pos_missing _ d (by simp) hd

/-- C3 amended-theorem witness: with a live player, a missing `time-pos`
`data` field and a numeric duration 200, the snapshot is `(0, 200, 0)`. -/
theorem get_progress_unavailable_witness :
    get_progress missingPosEnv liveState = (0, 200, 0) :=
  (get_progress_unavailable missingPosEnv liveState).2.2.2.2.2.2 200
    (by decide) rfl (by decide) rfl rfl (Or.inl rfl) rfl (by decide)

/-- C4.  Whenever both properties come back numeric and the duration is
positive, the snapshot is the position, the duration, and the percentage
`(position / duration) * 100` clamped to `[0, 100]`; in particular
position 50 with duration 200 yields exactly 25, and position 250 with
duration 200 clamps to exactly 100. -/
theorem get_progress_percentage :
    (∀ (env : Env) (s : State) (p d : ℚ),
        s.player_process ≠ none → env.pollExited = false →
        s.ipc_socket ≠ none → env.socketExists = true → env.connectOk = true →
        env.posReply = Reply.ok (DataField.numeric p) →
        env.durReply = Reply.ok (DataField.numeric d) → 0 < d →
        get_progress env s = (p, d, min 100 (max 0 (p / d * 100)))) ∧
    get_progress (mkEnv true false (Reply.ok (DataField.numeric 50))
      (Reply.ok (DataField.numeric 200))) liveState = (50, 200, 25) ∧
    get_progress (mkEnv true false (Reply.ok (DataField.numeric 250))
      (Reply.ok (DataField.numeric 200))) liveState = (250, 200, 100) := by
  refine ⟨?_, ?_, ?_⟩
  · intro env s p d hp he hs hx hc hpos hdur hd
    rw [get_progress_eq_progress_result env s hp he hs hx hc, hpos, hdur]
    exact progress_result_numeric p d hd
  · rw [get_progress_eq_progress_result _ _ (by decide) rfl (by decide) rfl rfl]
    show progress_result (Reply.ok (DataField.numeric 50))
      (Reply.ok (DataField.numeric 200)) = (50, 200, 25)
    rw [progress_result_numeric 50 200 (by norm_num)]
    norm_num [min_def, max_def]
  · rw [get_progress_eq_progress_result _ _ (by decide) rfl (by decide) rfl rfl]
    show progress_result (Reply.ok (DataField.numeric 250))
      (Reply.ok (DataField.numeric 200)) = (250, 200, 100)
    rw [progress_result_numeric 250 200 (by norm_num)]
    norm_num [min_def, max_def]

/-- C4 witness: the percentage formula instantiated at position 50 and
duration 200 on a live player state. -/
theorem get_progress_percentage_witness :
    (0 : ℚ) < 200 ∧
    get_progress (mkEnv true false (Reply.ok (DataField.numeric 50))
      (Reply.ok (DataField.numeric 200))) liveState =
      (50, 200, min 100 (max 0 (50 / 200 * 100))) :=
  ⟨by decide,
    get_progress_percentage.1 _ _ 50 200 (by decide) rfl (by decide) rfl rfl rfl rfl
      (by decide)⟩

/-- C5.  When the player handle is absent, the process has exited according
to `poll()`, or no socket path is recorded, the progress query returns
`(0, 0, 0)` for every possible channel behaviour — in particular its result
does not depend on any reply. -/
theorem get_progress_dead :
    ∀ (env : Env) (s : State),
      s.player_process = none ∨ env.pollExited = true ∨ s.ipc_socket = none →
      get_progress env s = (0, 0, 0) := by
  intro env s h
  unfold get_progress
  rcases h with h | h | h
  · rw [if_pos (Or.inl h)]
  · rw [if_pos (Or.inr h)]
  · split
    · rfl
    · rw [if_pos (Or.inl h)]

/-- C5 witness: the initial state has no player handle, so the progress
query returns all zeros even under a fully healthy channel. -/
theorem get_progress_dead_witness :
    initState.player_process = none ∧
    get_progress (mkEnv true false (Reply.ok (DataField.numeric 50))
      (Reply.ok (DataField.numeric 200))) initState = (0, 0, 0) :=
  ⟨rfl, get_progress_dead _ _ (Or.inl rfl)⟩

/-- A healthy-channel environment whose pause read-back returns `d` as the
`data` field. -/
def readbackEnv (d : Option Bool) : Env :=
  { mkEnv true false Reply.parseError Reply.parseError with statusData := d }

/-- C6.  Read-back after write: when toggle_play_pause takes the channel
path (live process, existing socket, successful connection), a successful
read-back carrying a `data` field makes the local paused flag equal to the
player's reported value, whatever the flag was before; a read-back that
fails to parse (either reply) or lacks the `data` field makes the local
flag the negation of its previous value. -/
theorem toggle_play_pause_readback :
    ∀ (env : Env) (s : State),
      s.player_process ≠ none → env.pollExited = false →
      s.ipc_socket ≠ none → env.socketExists = true → env.connectOk = true →
      ((∀ b : Bool, env.firstReplyParses = true → env.statusSockOk = true →
          env.statusParses = true → env.statusData = some b →
          (toggle_play_pause env s).paused = b) ∧
       (env.firstReplyParses = false → (toggle_play_pause env s).paused = !s.paused) ∧
       (env.firstReplyParses = true → env.statusSockOk = true →
          env.statusParses = false → (toggle_play_pause env s).paused = !s.paused) ∧
       (env.firstReplyParses = true → env.statusSockOk = true →
          env.statusParses = true → env.statusData = none →
          (toggle_play_pause env s).paused = !s.paused)) := by
  intro env s hp he hs hx hc
  refine ⟨fun b h1 h2 h3 h4 => ?_, fun h1 => ?_, fun h1 h2 h3 => ?_,
    fun h1 h2 h3 h4 => ?_⟩
  · unfold toggle_play_pause
    rw [if_neg (by simp [hp, he]), if_neg (by simp [hs, hx]), if_neg (by simp [hc]),
      if_neg (by simp [h1]), if_neg (by simp [h2]), if_neg (by simp [h3]), h4]
  · unfold toggle_play_pause
    rw [if_neg (by simp [hp, he]), if_neg (by simp [hs, hx]), if_neg (by simp [hc]),
      if_pos h1]
  · unfold toggle_play_pause
    rw [if_neg (by simp [hp, he]), if_neg (by simp [hs, hx]), if_neg (by simp [hc]),
      if_neg (by simp [h1]), if_neg (by simp [h2]), if_pos h3]
  · unfold toggle_play_pause
    rw [if_neg (by simp [hp, he]), if_neg (by simp [hs, hx]), if_neg (by simp [hc]),
      if_neg (by simp [h1]), if_neg (by simp [h2]), if_neg (by simp [h3]), h4]

/-- C6 witness: on a live unpaused player, adopting the player's reported
`pause = true` sets the local flag to `true`, and a read-back without
`data` flips it. -/
theorem toggle_play_pause_readback_witness :
    liveState.player_process ≠ none ∧
    (toggle_play_pause (readbackEnv (some true)) liveState).paused = true ∧
    (toggle_play_pause (readbackEnv none) liveState).paused = !liveState.paused := by
  refine ⟨by decide, ?_, ?_⟩
  · exact (toggle_play_pause_readback (readbackEnv (some true)) liveState (by decide) rfl
      (by decide) rfl rfl).1 true rfl rfl rfl rfl
  · exact (toggle_play_pause_readback (readbackEnv none) liveState (by decide) rfl
      (by decide) rfl rfl).2.2.2 rfl rfl rfl rfl

/-- On a valid index, a failed spawn leaves no handle and records the
visible error label, keeping the socket path that was just allocated. -/
theorem play_current_song_spawn_fail (env : Env) (s : State)
    (hne : s.songs ≠ []) (hlt : s.current_song_index < s.songs.length)
    (hsp : env.spawnOk = false) :
    play_current_song env s =
      { s with
          player_process := none
          paused := false
          ipc_socket := some env.socketPath
          current_song_info := "Error: " ++ PLAYER_CMD ++ " not found" } := by
  unfold play_current_song stop_playback
  rw [if_neg (by push_neg; exact ⟨hne, hlt⟩)]
  dsimp only
  rw [if_neg (by simp [hsp])]

/-- C7.  Spawn-failure degradation: on a non-empty list with an in-range
index, a failed spawn sets the visible info to the error label naming the
missing player, leaves the handle absent and the list and index untouched;
a subsequent next_song still advances the index by one modulo the length
and re-attempts the spawn, failing to the same error label without any
handle. -/
theorem spawn_failure_degradation :
    ∀ (env : Env) (s : State),
      s.songs ≠ [] → s.current_song_index < s.songs.length → env.spawnOk = false →
      ((play_current_song env s).current_song_info = "Error: mpv not found" ∧
       (play_current_song env s).player_process = none ∧
       (play_current_song env s).songs = s.songs ∧
       (play_current_song env s).current_song_index = s.current_song_index ∧
       (next_song env (play_current_song env s)).current_song_index =
         (s.current_song_index + 1) % s.songs.length ∧
       (next_song env (play_current_song env s)).current_song_info =
         "Error: mpv not found" ∧
       (next_song env (play_current_song env s)).player_process = none) := by
  intro env s hne hlt hsp
  have h1 := play_current_song_spawn_fail env s hne hlt hsp
  have hts : (play_current_song env s).songs = s.songs := play_current_song_songs env s
  have hti : (play_current_song env s).current_song_index = s.current_song_index :=
    play_current_song_index env s
  have hne' : (play_current_song env s).songs ≠ [] := by rw [hts]; exact hne
  have hstep : next_song env (play_current_song env s) =
      play_current_song env
        { play_current_song env s with
          current_song_index := ((play_current_song env s).current_song_index + 1) %
            (play_current_song env s).songs.length } := by
    unfold next_song
    rw [if_neg hne']
  have hu := play_current_song_spawn_fail env
    { play_current_song env s with
      current_song_index := ((play_current_song env s).current_song_index + 1) %
        (play_current_song env s).songs.length }
    (by dsimp only; exact hne')
    (by dsimp only; exact Nat.mod_lt _ (List.length_pos.2 hne')) hsp
  refine ⟨by rw [h1]; rfl, by rw [h1], hts, hti, ?_, ?_, ?_⟩
  · rw [next_song_index _ _ hne', hts, hti]
  · rw [hstep, hu]
    rfl
  · rw [hstep, hu]

/-- C7 witness: on the three-song live state under a spawn-failing
environment, the error label appears, the handle is gone, and the next
advance still works. -/
theorem spawn_failure_degradation_witness :
    liveState.songs ≠ [] ∧ liveState.current_song_index < liveState.songs.length ∧
    (mkEnv false false Reply.parseError Reply.parseError).spawnOk = false ∧
    (next_song (mkEnv false false Reply.parseError Reply.parseError)
      (play_current_song (mkEnv false false Reply.parseError Reply.parseError)
        liveState)).current_song_index = 1 := by
  refine ⟨by simp [liveState], by simp [liveState], rfl, ?_⟩
  have h := (spawn_failure_degradation (mkEnv false false Reply.parseError Reply.parseError)
    liveState (by simp [liveState]) (by simp [liveState]) rfl).2.2.2.2.1
  rw [h]
  rfl

/-- C8.  Frame property of toggle_shuffle: on a non-empty list with an
in-range index, the shuffle flag flips, the index and the already-played
closed prefix `songs[0..current_song_index]` stay unchanged, and the
suffix after the current index is replaced by a permutation of itself; two
consecutive toggles restore the shuffle flag. -/
theorem toggle_shuffle_frame :
    ∀ (env env2 : Env) (s : State),
      s.songs ≠ [] → s.current_song_index < s.songs.length →
      ((toggle_shuffle env s).shuffle = !s.shuffle ∧
       (toggle_shuffle env s).current_song_index = s.current_song_index ∧
       (toggle_shuffle env s).songs.take (s.current_song_index + 1) =
         s.songs.take (s.current_song_index + 1) ∧
       List.Perm ((toggle_shuffle env s).songs.drop (s.current_song_index + 1))
         (s.songs.drop (s.current_song_index + 1)) ∧
       (toggle_shuffle env2 (toggle_shuffle env s)).shuffle = s.shuffle) := by
  intro env env2 s hne hlt
  have hlen : (s.songs.take (s.current_song_index + 1)).length = s.current_song_index + 1 := by
    rw [List.length_take]
    omega
  refine ⟨toggle_shuffle_shuffle env s, toggle_shuffle_index env s, ?_, ?_, ?_⟩
  · unfold toggle_shuffle
    dsimp only
    rw [if_pos ⟨hne, hlt⟩]
    split
    · dsimp only
      rw [List.take_append_of_le_length (by omega), List.take_take]
      simp
    · rfl
  · unfold toggle_shuffle
    dsimp only
    rw [if_pos ⟨hne, hlt⟩]
    split
    · dsimp only
      rw [List.drop_append_of_le_length (by omega),
        List.drop_eq_nil_of_le (by omega), List.nil_append]
      exact env.shuffle_perm _
    · exact List.Perm.refl _
  · rw [toggle_shuffle_shuffle, toggle_shuffle_shuffle, Bool.not_not]

/-- C8 witness: toggling shuffle twice on the live three-song state keeps
the first song, permutes the remainder, and restores the flag. -/
theorem toggle_shuffle_frame_witness :
    liveState.songs ≠ [] ∧ liveState.current_song_index < liveState.songs.length ∧
    (toggle_shuffle (mkEnv true false Reply.parseError Reply.parseError)
      liveState).songs.take 1 = liveState.songs.take 1 ∧
    (toggle_shuffle (mkEnv true false Reply.parseError Reply.parseError)
      (toggle_shuffle (mkEnv true false Reply.parseError Reply.parseError)
        liveState)).shuffle = liveState.shuffle := by
  have h := toggle_shuffle_frame (mkEnv true false Reply.parseError Reply.parseError)
    (mkEnv true false Reply.parseError Reply.parseError) liveState
    (by simp [liveState]) (by simp [liveState])
  exact ⟨by simp [liveState], by simp [liveState], h.2.2.1, h.2.2.2.2⟩

/-- C9.  Empty resolution: when the playlist resolves to no songs,
start_playlist starts nothing — the song list becomes empty and the index,
player handle, paused flag, visible info and socket path are all left
exactly as they were. -/
theorem start_playlist_empty_resolution :
    ∀ (env : Env) (pn : String) (s : State),
      env.resolve pn = [] →
      ((start_playlist env pn s).songs = [] ∧
       (start_playlist env pn s).current_song_index = s.current_song_index ∧
       (start_playlist env pn s).player_process = s.player_process ∧
       (start_playlist env pn s).paused = s.paused ∧
       (start_playlist env pn s).current_song_info = s.current_song_info ∧
       (start_playlist env pn s).ipc_socket = s.ipc_socket) := by
  intro env pn s h
  have hs : start_playlist env pn s =
      { s with current_playlist := some pn, songs := env.resolve pn } := by
    unfold start_playlist
    dsimp only
    rw [if_pos h]
  rw [hs]
  exact ⟨h, rfl, rfl, rfl, rfl, rfl⟩

/-- C9 witness: an empty-resolving environment applied to the live state
leaves the handle, index and flags alone. -/
theorem start_playlist_empty_resolution_witness :
    (mkEnv true false Reply.parseError Reply.parseError).resolve "p" = [] ∧
    (start_playlist (mkEnv true false Reply.parseError Reply.parseError) "p"
      liveState).player_process = liveState.player_process ∧
    (start_playlist (mkEnv true false Reply.parseError Reply.parseError) "p"
      liveState).current_song_index = liveState.current_song_index :=
  ⟨rfl,
    (start_playlist_empty_resolution _ "p" liveState rfl).2.2.1,
    (start_playlist_empty_resolution _ "p" liveState rfl).2.1⟩

/-- C10.  Implicit no-op: when the player handle is absent or `poll()`
reports the process as exited, toggle_play_pause returns the state
entirely unchanged, for every possible channel and signal behaviour. -/
theorem toggle_play_pause_dead_noop :
    ∀ (env : Env) (s : State),
      s.player_process = none ∨ env.pollExited = true →
      toggle_play_pause env s = s := by
  intro env s h
  unfold toggle_play_pause
  rw [if_pos h]

/-- C10 witness: with no handle, toggle_play_pause leaves the initial state
untouched even under a fully healthy channel environment. -/
theorem toggle_play_pause_dead_noop_witness :
    initState.player_process = none ∧
    toggle_play_pause (mkEnv true false Reply.parseError Reply.parseError) initState
      = initState :=
  ⟨rfl, toggle_play_pause_dead_noop _ _ (Or.inl rfl)⟩

end MusicPlayer
